import Mathlib

/-!
Shallow embedding of `src/src-tauri/src/core/windows_process.rs`.

The module defines two extension traits, `StdCommandExt` for
`std::process::Command` and `TokioCommandExt` for `tokio::process::Command`,
each with a single method `hide_console_window`.  On `cfg(windows)` the method
calls `creation_flags(CREATE_NO_WINDOW)`; on `cfg(not(windows))` it is a no-op
returning `self`.

We embed the observable state of a command builder, the platform split as an
explicit `Platform` parameter (conditional compilation selects one branch at
build time), and the `creation_flags` setter of the Rust standard library,
which stores the given `u32` as the whole creation-flags mask
(`self.flags = flags`, assignment).  `tokio::process::Command::creation_flags`
delegates to the inner `std` command's setter and returns `self`.

Rust `&mut self -> &mut Self` builder methods return the `self` reference; we
make that observable with a `RetRef` component alongside the updated state.
-/

/-- Build-time target selected by `cfg(windows)` / `cfg(not(windows))`. -/
inductive Platform
  | windows
  | nonWindows
deriving DecidableEq, Repr

/-- Stdio configuration a builder can carry for each of the three standard
streams (as in `std::process::Stdio`). -/
inductive Stdio
  | inheritStream
  | piped
  | nullStream
deriving DecidableEq, Repr

/-- Which reference a builder method hands back: Rust methods of type
`&mut self -> &mut Self` that end in `self` return the very same object
(`selfRef`); a method returning a clone or replacement would be `freshRef`. -/
inductive RetRef
  | selfRef
  | freshRef
deriving DecidableEq, Repr

/-- The CREATE_NO_WINDOW flag for Windows process creation (0x08000000).
When set, the new process does not inherit or create a console window. -/
def CREATE_NO_WINDOW : Nat := 0x08000000

/-- Observable state of a `std::process::Command` builder: the fields the
spawn primitive reads.  `flags` is the Windows creation-flags mask (a `u32`,
kept as a natural number below `2 ^ 32`); it starts at `0` in a fresh builder. -/
structure StdCommand where
  program : String
  args : List String
  env : List (String × Option String)
  env_clear : Bool
  cwd : Option String
  stdin : Option Stdio
  stdout : Option Stdio
  stderr : Option Stdio
  flags : Nat
deriving DecidableEq, Repr

/-- `std::os::windows::process::CommandExt::creation_flags`: stores the given
`u32` value as the whole creation-flags mask (`self.flags = flags`, an
assignment, not an OR) and returns `self`. -/
def StdCommand.creation_flags (c : StdCommand) (flags : Nat) : RetRef × StdCommand :=
  (RetRef.selfRef, { c with flags := flags % 2 ^ 32 })

/-- `impl StdCommandExt for std::process::Command`: on Windows the body is
`self.creation_flags(CREATE_NO_WINDOW)`; on non-Windows the body is `self`. -/
def StdCommand.hide_console_window (p : Platform) (c : StdCommand) : RetRef × StdCommand :=
  match p with
  | Platform.windows => c.creation_flags CREATE_NO_WINDOW
  | Platform.nonWindows => (RetRef.selfRef, c)

/-- Observable state of a `tokio::process::Command` builder: it wraps a
`std::process::Command` (`self.std`) plus tokio-specific configuration. -/
structure TokioCommand where
  std : StdCommand
  kill_on_drop : Bool
deriving DecidableEq, Repr

/-- `tokio::process::Command::creation_flags`: delegates to the inner std
command's `creation_flags` and returns `self`. -/
def TokioCommand.creation_flags (c : TokioCommand) (flags : Nat) : RetRef × TokioCommand :=
  (RetRef.selfRef, { c with std := (c.std.creation_flags flags).2 })

/-- `impl TokioCommandExt for tokio::process::Command`: on Windows the body is
`self.creation_flags(CREATE_NO_WINDOW)`; on non-Windows the body is `self`. -/
def TokioCommand.hide_console_window (p : Platform) (c : TokioCommand) : RetRef × TokioCommand :=
  match p with
  | Platform.windows => c.creation_flags CREATE_NO_WINDOW
  | Platform.nonWindows => (RetRef.selfRef, c)

/-- Fallible view of the std `hide_console_window` body: every operation in
it (a field assignment and returning `self`) is infallible, so the embedding
always yields a result. -/
def StdCommand.hide_console_window? (p : Platform) (c : StdCommand) :
    Option (RetRef × StdCommand) :=
  match p with
  | Platform.windows => some (c.creation_flags CREATE_NO_WINDOW)
  | Platform.nonWindows => some (RetRef.selfRef, c)

/-- Fallible view of the tokio `hide_console_window` body: every operation in
it is infallible, so the embedding always yields a result. -/
def TokioCommand.hide_console_window? (p : Platform) (c : TokioCommand) :
    Option (RetRef × TokioCommand) :=
  match p with
  | Platform.windows => some (c.creation_flags CREATE_NO_WINDOW)
  | Platform.nonWindows => some (RetRef.selfRef, c)

/-- All observable fields of a std builder other than the creation-flags mask
agree between `a` and `b`. -/
def AgreesExceptFlags (a b : StdCommand) : Prop :=
  a.program = b.program ∧ a.args = b.args ∧ a.env = b.env ∧
  a.env_clear = b.env_clear ∧ a.cwd = b.cwd ∧ a.stdin = b.stdin ∧
  a.stdout = b.stdout ∧ a.stderr = b.stderr

/-- A concrete std builder with caller-set creation flags 0x00000200
(CREATE_NEW_PROCESS_GROUP), used as the explicit input for tests. -/
def sampleCmd : StdCommand :=
  { program := "git"
    args := ["status"]
    env := []
    env_clear := false
    cwd := none
    stdin := none
    stdout := none
    stderr := none
    flags := 0x00000200 }

/-- A concrete tokio builder wrapping `sampleCmd`. -/
def sampleTokio : TokioCommand :=
  { std := sampleCmd, kill_on_drop := false }

/-- C1 counterexample: on Windows with initial creation-flags mask 0x00000200,
`hide_console_window` leaves the mask 0x08000000, not
0x00000200 ||| 0x08000000 = 0x08000200 — caller-set bits are not preserved. -/
theorem c1_or_semantics_counterexample :
    sampleCmd.flags = 0x00000200 ∧
    (StdCommand.hide_console_window Platform.windows sampleCmd).2.flags ≠
      0x00000200 ||| 0x08000000 := by
  exact ⟨rfl, by decide⟩

/-- C1 (amended): on Windows, for every std and every tokio builder and every
initial creation-flags mask, `hide_console_window` assigns the mask: the
resulting creation-flags mask equals exactly 0x08000000, regardless of the
bits the caller had set. -/
theorem c1_amended_windows_mask_assigned (c : StdCommand) (t : TokioCommand) :
    (StdCommand.hide_console_window Platform.windows c).2.flags = 0x08000000 ∧
    (TokioCommand.hide_console_window Platform.windows t).2.std.flags = 0x08000000 := by
  exact ⟨rfl, rfl⟩

/-- C2 counterexample: on Windows with mask initially 0x00000200
(CREATE_NEW_PROCESS_GROUP), applying `hide_console_window` does not produce
0x08000200 — for the std flavor and for the tokio flavor alike. -/
theorem c2_expected_mask_counterexample :
    sampleCmd.flags = 0x00000200 ∧
    (StdCommand.hide_console_window Platform.windows sampleCmd).2.flags ≠ 0x08000200 ∧
    (TokioCommand.hide_console_window Platform.windows sampleTokio).2.std.flags ≠
      0x08000200 := by
  exact ⟨rfl, by decide, by decide⟩

/-- C2 (amended): on Windows with mask initially 0x00000200, applying
`hide_console_window` yields a creation-flags mask of exactly 0x08000000,
for both flavors. -/
theorem c2_amended_concrete_mask :
    (StdCommand.hide_console_window Platform.windows sampleCmd).2.flags = 0x08000000 ∧
    (TokioCommand.hide_console_window Platform.windows sampleTokio).2.std.flags =
      0x08000000 := by
  exact ⟨rfl, rfl⟩

/-- C3: on Windows, for every builder and every previously configured mask,
after `hide_console_window` the stored creation-flags mask equals exactly
0x08000000, because `creation_flags` stores the given value as the whole
mask rather than OR-ing it into the existing one. -/
theorem c3_mask_is_exactly_create_no_window (c : StdCommand) (t : TokioCommand) (f : Nat) :
    (c.creation_flags f).2.flags = f % 2 ^ 32 ∧
    (StdCommand.hide_console_window Platform.windows c).2.flags = 0x08000000 ∧
    (TokioCommand.hide_console_window Platform.windows t).2.std.flags = 0x08000000 := by
  exact ⟨rfl, rfl, rfl⟩

/-- C4: on a non-Windows platform, `hide_console_window` changes nothing:
the resulting builder state is identical to the input state, for both the
std flavor and the tokio flavor. -/
theorem c4_nonwindows_noop (c : StdCommand) (t : TokioCommand) :
    (StdCommand.hide_console_window Platform.nonWindows c).2 = c ∧
    (TokioCommand.hide_console_window Platform.nonWindows t).2 = t := by
  exact ⟨rfl, rfl⟩

/-- C5: on every platform and for every builder, `hide_console_window`
returns the `self` reference (the very same builder object), for both
flavors, so further configuration can be chained. -/
theorem c5_returns_self_reference (p : Platform) (c : StdCommand) (t : TokioCommand) :
    (StdCommand.hide_console_window p c).1 = RetRef.selfRef ∧
    (TokioCommand.hide_console_window p t).1 = RetRef.selfRef := by
  cases p <;> exact ⟨rfl, rfl⟩

/-- C6: `hide_console_window` is idempotent: on every platform, applying it
twice yields the same builder state as applying it once, for both flavors. -/
theorem c6_idempotent (p : Platform) (c : StdCommand) (t : TokioCommand) :
    (StdCommand.hide_console_window p
        (StdCommand.hide_console_window p c).2).2 =
      (StdCommand.hide_console_window p c).2 ∧
    (TokioCommand.hide_console_window p
        (TokioCommand.hide_console_window p t).2).2 =
      (TokioCommand.hide_console_window p t).2 := by
  cases p <;> exact ⟨rfl, rfl⟩

/-- C7: on Windows, `hide_console_window` mutates only the creation-flags
field: program, arguments, environment, stdio redirections, working
directory, and the tokio-specific configuration are all unchanged. -/
theorem c7_frame_only_flags (c : StdCommand) (t : TokioCommand) :
    AgreesExceptFlags (StdCommand.hide_console_window Platform.windows c).2 c ∧
    AgreesExceptFlags (TokioCommand.hide_console_window Platform.windows t).2.std t.std ∧
    (TokioCommand.hide_console_window Platform.windows t).2.kill_on_drop =
      t.kill_on_drop := by
  exact ⟨⟨rfl, rfl, rfl, rfl, rfl, rfl, rfl, rfl⟩,
    ⟨rfl, rfl, rfl, rfl, rfl, rfl, rfl, rfl⟩, rfl⟩

/-- C8: the two flavors have identical semantics: on every platform, the
transformation the tokio `hide_console_window` applies to the wrapped std
configuration is exactly the std `hide_console_window` transformation, the
tokio-specific state is untouched, and both return the same reference. -/
theorem c8_flavors_identical (p : Platform) (t : TokioCommand) :
    (TokioCommand.hide_console_window p t).2.std =
      (StdCommand.hide_console_window p t.std).2 ∧
    (TokioCommand.hide_console_window p t).2.kill_on_drop = t.kill_on_drop ∧
    (TokioCommand.hide_console_window p t).1 =
      (StdCommand.hide_console_window p t.std).1 := by
  cases p <;> exact ⟨rfl, rfl, rfl⟩

/-- C9: `hide_console_window` is total and infallible: on every platform and
for every builder state, the fallible view of the body always yields a
result (no error branch is reachable), for both flavors. -/
theorem c9_total_infallible (p : Platform) (c : StdCommand) (t : TokioCommand) :
    (StdCommand.hide_console_window? p c).isSome = true ∧
    (TokioCommand.hide_console_window? p t).isSome = true := by
  cases p <;> exact ⟨rfl, rfl⟩

/-- C10: the recorded constant CREATE_NO_WINDOW equals 0x08000000 exactly,
and on Windows both implementations store that very constant as the
creation-flags mask. -/
theorem c10_constant_value (c : StdCommand) (t : TokioCommand) :
    CREATE_NO_WINDOW = 0x08000000 ∧
    (StdCommand.hide_console_window Platform.windows c).2.flags = CREATE_NO_WINDOW ∧
    (TokioCommand.hide_console_window Platform.windows t).2.std.flags =
      CREATE_NO_WINDOW := by
  exact ⟨rfl, rfl, rfl⟩
